import Mathlib

/-!
Shallow embedding of `pycalendar.py` (gcal2pdf): the month-grid builder
(Python `calendar.monthcalendar` as used by `add_calendar_page`), the
canvas drawing state, the `save_state` context manager, the grid layout
of `add_calendar_page`, and the default cell renderer `draw_cell`.
Reals from the source are modelled as `ℚ`.
-/

/-! ### Python `calendar` / `datetime` arithmetic (as consumed by `monthcalendar`) -/

/-- Python `calendar.isleap`. -/
def isleap (y : Nat) : Bool :=
  y % 4 == 0 && (y % 100 != 0 || y % 400 == 0)

/-- Python `calendar.mdays` : days per month, index 0 unused. -/
def mdays : List Nat := [0, 31, 28, 31, 30, 31, 30, 31, 31, 30, 31, 30, 31]

/-- Python `calendar.monthrange`'s day count: `mdays[month]` plus one in a
leap-year February. -/
def days_in_month (y m : Nat) : Nat :=
  mdays.getD m 0 + (if m = 2 ∧ isleap y then 1 else 0)

/-- CPython `datetime._days_before_year`. -/
def days_before_year (y : Nat) : Nat :=
  (y - 1) * 365 + (y - 1) / 4 - (y - 1) / 100 + (y - 1) / 400

/-- CPython `datetime._days_before_month`: days in the year preceding month
`m`, with the leap correction for months past February. -/
def days_before_month (y m : Nat) : Nat :=
  ((mdays.take m).drop 1).sum + (if 2 < m ∧ isleap y then 1 else 0)

/-- CPython `date.toordinal`: day 1 of year 1 is ordinal 1. -/
def toordinal (y m d : Nat) : Nat :=
  days_before_year y + days_before_month y m + d

/-- CPython `date.weekday`: Monday = 0 … Sunday = 6. -/
def weekday (y m d : Nat) : Nat :=
  (toordinal y m d + 6) % 7

/-- Python `calendar.Calendar.itermonthdays` with first weekday `fw`:
leading zero padding, the days 1..n, trailing zero padding. -/
def itermonthdays (fw : Int) (y m : Nat) : List Nat :=
  let day1 : Int := weekday y m 1
  let ndays : Nat := days_in_month y m
  let days_before : Nat := ((day1 - fw) % 7).toNat
  let days_after : Nat := ((fw - day1 - ndays) % 7).toNat
  List.replicate days_before 0 ++ List.range' 1 ndays ++ List.replicate days_after 0

/-- Fuel-indexed slicing of a list into consecutive chunks of 7
(Python `[days[i:i+7] for i in range(0, len(days), 7)]`); the fuel is an
upper bound on the length so the recursion is structural. -/
def chunk7Fuel : Nat → List Nat → List (List Nat)
  | _, [] => []
  | 0, _ :: _ => []
  | fuel + 1, x :: xs => (x :: xs.take 6) :: chunk7Fuel fuel (xs.drop 6)

/-- Slice a list into consecutive chunks of 7 elements. -/
def chunk7 (l : List Nat) : List (List Nat) :=
  chunk7Fuel l.length l

/-- Python `calendar.monthcalendar(y, m)` run with module first weekday `fw`:
the week/day matrix of the month. -/
def monthcalendar (fw : Int) (y m : Nat) : List (List Nat) :=
  chunk7 (itermonthdays fw y m)

/-! ### Geometry and canvas model (`Geom`, `Size`, `Font`, reportlab `Canvas`) -/

/-- The `Font` namedtuple. -/
structure Font where
  name : String
  size : ℚ
deriving DecidableEq, Repr

/-- The `Geom` namedtuple. -/
structure Geom where
  x : ℚ
  y : ℚ
  width : ℚ
  height : ℚ
deriving DecidableEq, Repr

/-- The `Size` namedtuple. -/
structure Size where
  width : ℚ
  height : ℚ
deriving DecidableEq, Repr

/-- One observable drawing call on the reportlab canvas; `cellMark` is
instrumentation recording a cell-callback invocation with its arguments. -/
inductive Op where
  | rect (x y w h : ℚ)
  | drawString (x y : ℚ) (s : String)
  | cellMark (day : Nat) (g : Geom)
  | showPage
deriving DecidableEq, Repr

/-- The mutable drawing state of a reportlab `Canvas`: active font, active
stroke width, the saved-state stack, and the trace of drawing calls. -/
structure Canvas where
  font : Font
  lineWidth : ℚ
  stack : List (Font × ℚ)
  ops : List Op
deriving DecidableEq, Repr

def Canvas.setFont (c : Canvas) (f : Font) : Canvas :=
  { c with font := f }

def Canvas.setLineWidth (c : Canvas) (w : ℚ) : Canvas :=
  { c with lineWidth := w }

def Canvas.rect (c : Canvas) (x y w h : ℚ) : Canvas :=
  { c with ops := c.ops ++ [Op.rect x y w h] }

def Canvas.drawString (c : Canvas) (x y : ℚ) (s : String) : Canvas :=
  { c with ops := c.ops ++ [Op.drawString x y s] }

def Canvas.mark (c : Canvas) (day : Nat) (g : Geom) : Canvas :=
  { c with ops := c.ops ++ [Op.cellMark day g] }

def Canvas.saveState (c : Canvas) : Canvas :=
  { c with stack := (c.font, c.lineWidth) :: c.stack }

def Canvas.restoreState (c : Canvas) : Canvas :=
  match c.stack with
  | [] => c
  | (f, w) :: rest => { c with font := f, lineWidth := w, stack := rest }

def Canvas.showPage (c : Canvas) : Canvas :=
  { c with ops := c.ops ++ [Op.showPage] }

/-- Process state outside the canvas: the `calendar` module's global
first-weekday setting (default `calendar.MONDAY = 0`). -/
structure PyState where
  firstweekday : Int
  canvas : Canvas
deriving DecidableEq, Repr

/-- A cell callback `cell_cb(canvas, day, rect, font, scale_factor)`; the
`Option Unit` is `some ()` when the callback raises. -/
abbrev CellCB := Canvas → Nat → Geom → Font → ℚ → Canvas × Option Unit

/-- The `save_state` context manager of `pycalendar.py`: `canvas.saveState()`,
run the body, `canvas.restoreState()`. The `yield` is not wrapped in
`try/finally`, so when the body raises, the exception propagates out of the
generator and `restoreState` is never executed. -/
def save_state (body : Canvas → Canvas × Option Unit) (canvas : Canvas) :
    Canvas × Option Unit :=
  let c1 := canvas.saveState
  match body c1 with
  | (c2, none) => (c2.restoreState, none)
  | (c2, some e) => (c2, some e)

/-! ### `add_calendar_page` -/

/-- Derived scale factor: `min(rect.width, rect.height)`. -/
def scaleFactorOf (rect : Geom) : ℚ :=
  min rect.width rect.height

/-- Derived stroke width: `scale_factor * 0.0025`. -/
def lineWidthOf (sf : ℚ) : ℚ :=
  sf * (25 / 10000)

/-- Default font: `Font('Helvetica', scale_factor * 0.028)`. -/
def defaultFontOf (sf : ℚ) : Font :=
  ⟨"Helvetica", sf * (28 / 1000)⟩

/-- The per-cell rectangle computed in the loop of `add_calendar_page`. -/
def cellGeom (rect : Geom) (cellsize : Size) (rows row col : Nat) : Geom :=
  ⟨rect.x + cellsize.width * col,
   rect.y + ((rows : ℚ) - (row : ℚ)) * cellsize.height,
   cellsize.width, cellsize.height⟩

/-- Row-major enumeration `(row, col, day)` of the nested
`for row, week in enumerate(cal): for col, day in enumerate(week)` loops. -/
def cellsOf (cal : List (List Nat)) : List (Nat × Nat × Nat) :=
  cal.enum.flatMap fun rw => rw.2.enum.map fun cd => (rw.1, cd.1, cd.2)

/-- One iteration of the cell loop: under `save_state`, set the default font
and line width, then invoke the callback; once an exception is recorded the
remaining iterations are skipped (the exception propagates). -/
def renderCell (cell_cb : CellCB) (font : Font) (line_width : ℚ) (rect : Geom)
    (cellsize : Size) (rows : Nat) (scale_factor : ℚ)
    (acc : Canvas × Option Unit) (rcd : Nat × Nat × Nat) : Canvas × Option Unit :=
  match acc with
  | (cv, some e) => (cv, some e)
  | (cv, none) =>
    save_state (fun c =>
      cell_cb ((c.setFont font).setLineWidth line_width) rcd.2.2
        (cellGeom rect cellsize rows rcd.1 rcd.2.1) font scale_factor) cv

/-- `add_calendar_page(canvas, rect, datetime_obj, cell_cb, first_weekday)`:
sets the `calendar` module's global first weekday, builds the month matrix,
derives scale factor / line width / default font, insets the rectangle by the
line width, and renders each cell; finally `canvas.showPage()`. On an
exception the page is not finished and the error propagates. -/
def add_calendar_page (cell_cb : CellCB) (st : PyState) (rect0 : Geom)
    (year month : Nat) (first_weekday : Int) : PyState × Option Unit :=
  -- `calendar.setfirstweekday(first_weekday)`: the module global is replaced
  -- by the parameter, and `calendar.monthcalendar` then reads that global.
  let cal := monthcalendar first_weekday year month
  let scale_factor := scaleFactorOf rect0
  let line_width := lineWidthOf scale_factor
  let font := defaultFontOf scale_factor
  let rows := cal.length
  let rect : Geom := ⟨rect0.x + line_width, rect0.y + line_width,
                      rect0.width - line_width * 2, rect0.height - line_width * 2⟩
  let cellsize : Size := ⟨rect.width / 7, rect.height / (rows : ℚ)⟩
  let res := (cellsOf cal).foldl
    (renderCell cell_cb font line_width rect cellsize rows scale_factor)
    (st.canvas, none)
  match res.2 with
  | none => (⟨first_weekday, res.1.showPage⟩, none)
  | some e => (⟨first_weekday, res.1⟩, some e)

/-! ### `ORDINALS` and `draw_cell` -/

/-- The `ORDINALS` table (non-default entries). -/
def ORDINALS : List (Nat × String) :=
  [(1, "st"), (2, "nd"), (3, "rd"), (21, "st"), (22, "nd"), (23, "rd"), (31, "st")]

/-- The default ordinal suffix, `ORDINALS[None]`. -/
def ORDINALS_default : String := "th"

/-- `ORDINALS.get(day, ORDINALS[None])`. -/
def ordinalsGet (d : Nat) : String :=
  (ORDINALS.lookup d).getD ORDINALS_default

/-- Cell margin from `draw_cell`: `Size(font.size * 0.5, font.size * 1.3)`. -/
def cellMarginOf (f : Font) : Size :=
  ⟨f.size * (1 / 2), f.size * (13 / 10)⟩

/-- The smaller placeholder font of `draw_cell`:
`Font('Helvetica', scale_factor * 0.018)`. -/
def smallFontOf (sf : ℚ) : Font :=
  ⟨"Helvetica", sf * (18 / 1000)⟩

/-- `draw_cell(canvas, day, rect, font, scale_factor)`; `sw` models
`canvas.stringWidth` (external font metrics). -/
def draw_cell (sw : String → String → ℚ → ℚ) (canvas : Canvas) (day : Nat)
    (rect : Geom) (font : Font) (scale_factor : ℚ) : Canvas :=
  if day = 0 then canvas
  else
    let margin := cellMarginOf font
    let canvas := canvas.rect rect.x (rect.y - rect.height) rect.width rect.height
    let dayStr := toString day
    let ordinal_str := ordinalsGet day
    let text_x := rect.x + margin.width
    let text_y := rect.y - margin.height
    let canvas := canvas.drawString text_x text_y dayStr
    let number_width := sw dayStr font.name font.size
    let canvas := canvas.drawString (text_x + number_width)
      (text_y + margin.height * (1 / 10)) ordinal_str
    let smallfont := smallFontOf scale_factor
    let canvas := canvas.setFont smallfont
    (List.range' 1 3).foldl (fun cv rownum =>
      cv.drawString text_x (text_y - smallfont.size * (rownum : ℚ))
        ("DUMMY " ++ toString rownum)) canvas

/-- Instrumentation callback: records each invocation (day and cell geometry)
and never raises. -/
def recordCb : CellCB :=
  fun cv day g _ _ => (cv.mark day g, none)

/-- Stub string-width metric used to instantiate theorems at concrete inputs. -/
def swZero : String → String → ℚ → ℚ := fun _ _ _ => 0

/-- A concrete canvas used to instantiate theorems at concrete inputs. -/
def initCanvas : Canvas := ⟨⟨"F0", 12⟩, 1, [], []⟩

/-- A cell callback that records a font change and then raises. -/
def failCb : CellCB := fun cv _ _ _ _ => (cv.setFont ⟨"Courier", 9⟩, some ())

/-! ### Structural lemmas about the month matrix -/

theorem chunk7Fuel_flatten (fuel : Nat) (l : List Nat) (h : l.length ≤ fuel) :
    (chunk7Fuel fuel l).flatten = l := by
  induction fuel generalizing l with
  | zero =>
    cases l with
    | nil => rfl
    | cons x xs => simp at h
  | succ n ih =>
    cases l with
    | nil => rfl
    | cons x xs =>
      simp only [chunk7Fuel, List.flatten_cons]
      rw [ih (xs.drop 6) (by simp only [List.length_cons] at h; simp [List.length_drop]; omega)]
      simp [List.take_append_drop]

theorem chunk7Fuel_mem_length (fuel : Nat) (l : List Nat) (h7 : l.length % 7 = 0) :
    ∀ c ∈ chunk7Fuel fuel l, c.length = 7 := by
  induction fuel generalizing l with
  | zero =>
    cases l with
    | nil => simp [chunk7Fuel]
    | cons x xs => simp [chunk7Fuel]
  | succ n ih =>
    cases l with
    | nil => simp [chunk7Fuel]
    | cons x xs =>
      intro c hc
      simp only [chunk7Fuel, List.mem_cons] at hc
      have hx : 6 ≤ xs.length := by
        simp only [List.length_cons] at h7; omega
      rcases hc with rfl | hc
      · simp [List.length_take]; omega
      · refine ih (xs.drop 6) ?_ c hc
        simp only [List.length_cons] at h7
        simp [List.length_drop]; omega

theorem itermonthdays_length_mod (fw : Int) (y m : Nat) :
    (itermonthdays fw y m).length % 7 = 0 := by
  simp only [itermonthdays, List.length_append, List.length_replicate, List.length_range']
  omega

theorem itermonthdays_length_ge (fw : Int) (y m : Nat) :
    days_in_month y m ≤ (itermonthdays fw y m).length := by
  simp only [itermonthdays, List.length_append, List.length_replicate, List.length_range']
  omega

theorem monthcalendar_rows7 (fw : Int) (y m : Nat) :
    ∀ w ∈ monthcalendar fw y m, w.length = 7 :=
  chunk7Fuel_mem_length _ _ (itermonthdays_length_mod fw y m)

theorem monthcalendar_flatten (fw : Int) (y m : Nat) :
    (monthcalendar fw y m).flatten = itermonthdays fw y m :=
  chunk7Fuel_flatten _ _ le_rfl

theorem monthcalendar_map_length (fw : Int) (y m : Nat) :
    (monthcalendar fw y m).map List.length =
      List.replicate (monthcalendar fw y m).length 7 := by
  rw [List.eq_replicate_iff]
  refine ⟨by simp, ?_⟩
  intro b hb
  simp only [List.mem_map] at hb
  obtain ⟨w, hw, rfl⟩ := hb
  exact monthcalendar_rows7 fw y m w hw

theorem itermonthdays_eq_rows_mul (fw : Int) (y m : Nat) :
    (itermonthdays fw y m).length = (monthcalendar fw y m).length * 7 := by
  conv_lhs => rw [← monthcalendar_flatten fw y m]
  rw [List.length_flatten, monthcalendar_map_length, List.sum_replicate, smul_eq_mul]

theorem days_in_month_ge (y m : Nat) (h1 : 1 ≤ m) (h2 : m ≤ 12) :
    28 ≤ days_in_month y m := by
  interval_cases m <;> simp [days_in_month, mdays]

theorem monthcalendar_rows_ge (fw : Int) (y m : Nat) (h1 : 1 ≤ m) (h2 : m ≤ 12) :
    4 ≤ (monthcalendar fw y m).length := by
  have ha := itermonthdays_eq_rows_mul fw y m
  have hb := itermonthdays_length_ge fw y m
  have hc := days_in_month_ge y m h1 h2
  omega

theorem itermonthdays_filter (fw : Int) (y m : Nat) :
    (itermonthdays fw y m).filter (fun d => d ≠ 0) =
      List.range' 1 (days_in_month y m) := by
  simp only [itermonthdays, List.filter_append, List.filter_replicate]
  rw [List.filter_eq_self.mpr]
  · simp
  · intro a ha
    simp only [List.mem_range'] at ha
    obtain ⟨i, _, rfl⟩ := ha
    simp

/-- C1: for every valid (year, month, firstWeekday) input, every row of the
MonthGrid built by `add_calendar_page` (via `monthcalendar`) has exactly 7
entries, and reading all cells in row-major order and discarding zeros yields
exactly the integers 1..N (N = days in the month), each once, ascending. -/
theorem C1_grid_invariant (y m : Nat) (fw : Int)
    (hm1 : 1 ≤ m) (hm2 : m ≤ 12) (hfw1 : 0 ≤ fw) (hfw2 : fw < 7) :
    (monthcalendar fw y m).map List.length =
      List.replicate (monthcalendar fw y m).length 7 ∧
    (monthcalendar fw y m).flatten.filter (fun d => d ≠ 0) =
      List.range' 1 (days_in_month y m) := by
  refine ⟨monthcalendar_map_length fw y m, ?_⟩
  rw [monthcalendar_flatten, itermonthdays_filter]

/-- Witness for C1 at April 2024, Monday-first. -/
theorem C1_grid_invariant_witness :
    (1 ≤ 4 ∧ 4 ≤ 12 ∧ (0 : Int) ≤ 0 ∧ (0 : Int) < 7) ∧
    ((monthcalendar 0 2024 4).map List.length =
        List.replicate (monthcalendar 0 2024 4).length 7 ∧
      (monthcalendar 0 2024 4).flatten.filter (fun d => d ≠ 0) =
        List.range' 1 (days_in_month 2024 4)) :=
  ⟨⟨by decide, by decide, by decide, by decide⟩,
   C1_grid_invariant 2024 4 0 (by decide) (by decide) (by decide) (by decide)⟩

/-- C7 counterexample: for April 2024 Monday-first the first row of the
MonthGrid is not `[0, 1, 2, 3, 4, 5, 6]` (April 1, 2024 is a Monday, so the
first row has no leading padding). -/
theorem C7_counterexample :
    ¬ (monthcalendar 0 2024 4).getD 0 [] = [0, 1, 2, 3, 4, 5, 6] := by decide

/-- C7 amended: for April 2024 Monday-first the MonthGrid has exactly 5 rows,
its first row is `[1, 2, 3, 4, 5, 6, 7]`, and day 30 appears in row 4 at the
Tuesday column (column 1) followed by trailing zeros. -/
theorem C7_amended_grid :
    monthcalendar 0 2024 4 =
      [[1, 2, 3, 4, 5, 6, 7],
       [8, 9, 10, 11, 12, 13, 14],
       [15, 16, 17, 18, 19, 20, 21],
       [22, 23, 24, 25, 26, 27, 28],
       [29, 30, 0, 0, 0, 0, 0]] := by decide

/-- C5: the ordinal-suffix lookup maps 1, 21, 31 to "st", 2, 22 to "nd",
3, 23 to "rd", and every other day in 1..31 (including 4 and 11) to "th". -/
theorem C5_ordinals (d : Nat) (h1 : 1 ≤ d) (h2 : d ≤ 31) :
    ordinalsGet d =
      if d = 1 ∨ d = 21 ∨ d = 31 then "st"
      else if d = 2 ∨ d = 22 then "nd"
      else if d = 3 ∨ d = 23 then "rd"
      else "th" := by
  interval_cases d <;> decide

/-- Witness for C5 at day 11 (a teen day, default suffix). -/
theorem C5_ordinals_witness :
    (1 ≤ 11 ∧ 11 ≤ 31) ∧
    ordinalsGet 11 =
      (if (11 : Nat) = 1 ∨ (11 : Nat) = 21 ∨ (11 : Nat) = 31 then "st"
       else if (11 : Nat) = 2 ∨ (11 : Nat) = 22 then "nd"
       else if (11 : Nat) = 3 ∨ (11 : Nat) = 23 then "rd"
       else "th") :=
  ⟨⟨by decide, by decide⟩, C5_ordinals 11 (by decide) (by decide)⟩

/-- C6: rendering a padding cell (day = 0) with the default cell renderer
performs no drawing operation and no state change: the canvas is returned
unchanged, for every rectangle, font, scale factor and metric. -/
theorem C6_padding_cell (sw : String → String → ℚ → ℚ) (c : Canvas) (g : Geom)
    (f : Font) (sf : ℚ) : draw_cell sw c 0 g f sf = c := rfl

/-- C8: doubling both extents of the page rectangle doubles the derived
scale factor, line width, default font size, and both cell-internal text
margins: all derived quantities are homogeneous of degree 1. -/
theorem C8_scale_invariance (rect : Geom) :
    scaleFactorOf ⟨rect.x, rect.y, 2 * rect.width, 2 * rect.height⟩ =
      2 * scaleFactorOf rect ∧
    lineWidthOf (2 * scaleFactorOf rect) = 2 * lineWidthOf (scaleFactorOf rect) ∧
    (defaultFontOf (2 * scaleFactorOf rect)).size =
      2 * (defaultFontOf (scaleFactorOf rect)).size ∧
    (cellMarginOf (defaultFontOf (2 * scaleFactorOf rect))).width =
      2 * (cellMarginOf (defaultFontOf (scaleFactorOf rect))).width ∧
    (cellMarginOf (defaultFontOf (2 * scaleFactorOf rect))).height =
      2 * (cellMarginOf (defaultFontOf (scaleFactorOf rect))).height := by
  refine ⟨?_, ?_, ?_, ?_, ?_⟩
  · simp only [scaleFactorOf]
    rcases le_total rect.width rect.height with h | h <;> simp [min_def, h]
  · simp only [lineWidthOf]; ring
  · simp only [defaultFontOf]; ring
  · simp only [cellMarginOf, defaultFontOf]; ring
  · simp only [cellMarginOf, defaultFontOf]; ring

/-! ### Trace of a full page render with the recording callback -/

theorem renderCell_record (font : Font) (lw : ℚ) (rect : Geom) (cs : Size)
    (rows : Nat) (sf : ℚ) (cv : Canvas) (rcd : Nat × Nat × Nat) :
    renderCell recordCb font lw rect cs rows sf (cv, none) rcd =
      ({ cv with ops := cv.ops ++
          [Op.cellMark rcd.2.2 (cellGeom rect cs rows rcd.1 rcd.2.1)] }, none) := rfl

theorem foldl_record (font : Font) (lw : ℚ) (rect : Geom) (cs : Size)
    (rows : Nat) (sf : ℚ) (cells : List (Nat × Nat × Nat)) :
    ∀ cv : Canvas,
      cells.foldl (renderCell recordCb font lw rect cs rows sf) (cv, none) =
        ({ cv with ops := cv.ops ++ cells.map (fun rcd =>
            Op.cellMark rcd.2.2 (cellGeom rect cs rows rcd.1 rcd.2.1)) }, none) := by
  induction cells with
  | nil => intro cv; simp
  | cons rcd cells ih =>
    intro cv
    rw [List.foldl_cons, renderCell_record, ih]
    simp

theorem add_calendar_page_record (st : PyState) (rect0 : Geom) (y m : Nat) (fw : Int) :
    (add_calendar_page recordCb st rect0 y m fw).2 = none ∧
    (add_calendar_page recordCb st rect0 y m fw).1.firstweekday = fw ∧
    (add_calendar_page recordCb st rect0 y m fw).1.canvas.ops =
      st.canvas.ops ++ (cellsOf (monthcalendar fw y m)).map (fun rcd =>
        Op.cellMark rcd.2.2 (cellGeom
          ⟨rect0.x + lineWidthOf (scaleFactorOf rect0),
           rect0.y + lineWidthOf (scaleFactorOf rect0),
           rect0.width - lineWidthOf (scaleFactorOf rect0) * 2,
           rect0.height - lineWidthOf (scaleFactorOf rect0) * 2⟩
          ⟨(rect0.width - lineWidthOf (scaleFactorOf rect0) * 2) / 7,
           (rect0.height - lineWidthOf (scaleFactorOf rect0) * 2) /
             ((monthcalendar fw y m).length : ℚ)⟩
          (monthcalendar fw y m).length rcd.1 rcd.2.1)) ++ [Op.showPage] := by
  dsimp only [add_calendar_page]
  rw [foldl_record]
  dsimp only
  simp [Canvas.showPage]

/-! ### Counting and locating the rendered cells -/

theorem cellsOf_length (cal : List (List Nat)) (h : ∀ w ∈ cal, w.length = 7) :
    (cellsOf cal).length = cal.length * 7 := by
  rw [cellsOf, List.length_flatMap]
  have h1 : cal.enum.map (List.length ∘ fun rw => rw.2.enum.map fun cd => (rw.1, cd.1, cd.2)) =
      cal.enum.map (fun rw => rw.2.length) := by
    simp [Function.comp_def, List.enum_length]
  rw [h1]
  have h2 : cal.enum.map (fun rw : Nat × List Nat => rw.2.length) =
      (cal.enum.map Prod.snd).map List.length := by
    rw [List.map_map]; rfl
  rw [h2, List.enum_map_snd]
  have h3 : cal.map List.length = List.replicate cal.length 7 := by
    rw [List.eq_replicate_iff]
    refine ⟨by simp, ?_⟩
    intro b hb
    simp only [List.mem_map] at hb
    obtain ⟨w, hw, rfl⟩ := hb
    exact h w hw
  rw [h3, List.sum_replicate, smul_eq_mul]

theorem cellsOf_enumFrom_rowcol :
    ∀ (cal : List (List Nat)) (k : Nat), (∀ w ∈ cal, w.length = 7) →
      ((List.enumFrom k cal).flatMap fun rw => rw.2.enum.map fun cd => (rw.1, cd.1)) =
        (List.range' k cal.length).flatMap fun r => (List.range 7).map fun c => (r, c) := by
  intro cal
  induction cal with
  | nil => intro k h; rfl
  | cons w ws ih =>
    intro k h
    rw [List.enumFrom_cons, List.length_cons, List.range'_succ, List.flatMap_cons,
      List.flatMap_cons]
    congr 1
    · have h7 : w.length = 7 := h w (by simp)
      calc w.enum.map (fun cd => (k, cd.1))
          = (w.enum.map Prod.fst).map (fun c => (k, c)) := by rw [List.map_map]; rfl
        _ = (List.range 7).map (fun c => (k, c)) := by rw [List.enum_map_fst, h7]
    · exact ih (k + 1) (fun w' hw' => h w' (by simp [hw']))

theorem cellsOf_rowcol (cal : List (List Nat)) (h : ∀ w ∈ cal, w.length = 7) :
    (cellsOf cal).map (fun rcd => (rcd.1, rcd.2.1)) =
      List.product (List.range cal.length) (List.range 7) := by
  rw [cellsOf, List.map_flatMap]
  have hmap : ∀ rw : Nat × List Nat,
      ((rw.2.enum.map fun cd => (rw.1, cd.1, cd.2)).map fun rcd => (rcd.1, rcd.2.1)) =
        rw.2.enum.map fun cd => (rw.1, cd.1) := by
    intro rw; rw [List.map_map]; rfl
  simp only [hmap]
  have h0 := cellsOf_enumFrom_rowcol cal 0 h
  rw [List.range_eq_range']
  exact h0

/-- C2 (refuting the error-path restoration): running `add_calendar_page` with
a cell callback that sets the font to Courier 9 and then raises leaves the
canvas's active font equal to the callback's font, not the font captured when
the cell began rendering, and the saved state frame is still on the stack:
`save_state` does not wrap its `yield` in `try/finally`, so `restoreState`
is skipped on the error path. -/
theorem C2_guard_leaks_on_error :
    (add_calendar_page failCb ⟨0, initCanvas⟩ ⟨0, 0, 7, 7⟩ 2024 4 0).2 = some () ∧
    (add_calendar_page failCb ⟨0, initCanvas⟩ ⟨0, 0, 7, 7⟩ 2024 4 0).1.canvas.font =
      ⟨"Courier", 9⟩ ∧
    (add_calendar_page failCb ⟨0, initCanvas⟩ ⟨0, 0, 7, 7⟩ 2024 4 0).1.canvas.stack =
      [(⟨"F0", 12⟩, 1)] ∧
    (⟨"Courier", 9⟩ : Font) ≠ ⟨"F0", 12⟩ := by decide

/-- C9 counterexample: rendering an April 2024 page with Sunday-first
(`first_weekday = 6`) leaves the process-wide `calendar` module first-weekday
global set to 6, and a later `monthcalendar` computation that does not pass
the parameter (it reads the global) yields a different grid than it would
under the untouched default. -/
theorem C9_counterexample :
    (add_calendar_page recordCb ⟨0, initCanvas⟩ ⟨0, 0, 7, 7⟩ 2024 4 6).1.firstweekday = 6 ∧
    monthcalendar
        (add_calendar_page recordCb ⟨0, initCanvas⟩ ⟨0, 0, 7, 7⟩ 2024 4 6).1.firstweekday
        2024 5 ≠
      monthcalendar 0 2024 5 := by decide

/-- C9 amended: `add_calendar_page` persists its first-weekday argument into
the process-wide `calendar` module state (`calendar.setfirstweekday`); after
any call the global equals the argument, so a later computation reading the
global is affected by the earlier call's choice. -/
theorem C9_amended_global_persists (cb : CellCB) (st : PyState) (rect : Geom)
    (y m : Nat) (fw : Int) :
    (add_calendar_page cb st rect y m fw).1.firstweekday = fw := by
  dsimp only [add_calendar_page]
  split <;> rfl

/-- C4 counterexample: with a page rectangle of negative width (non-positive
extent) `add_calendar_page` does not fail — there is no `InvalidLayoutError`
anywhere in the code — and the cell renderer is invoked for all 35 cells of
April 2024. -/
theorem C4_counterexample :
    (add_calendar_page recordCb ⟨0, initCanvas⟩ ⟨0, 0, -10, 100⟩ 2024 4 0).2 = none ∧
    ((add_calendar_page recordCb ⟨0, initCanvas⟩ ⟨0, 0, -10, 100⟩ 2024 4 0).1.canvas.ops.filter
        (fun op => match op with | Op.cellMark _ _ => true | _ => false)).length = 35 := by
  decide

/-- C4 amended: `add_calendar_page` performs no layout validation. The month
matrix always has at least 4 rows (so the zero-rows case cannot arise), and
for every page rectangle — including one with non-positive width or height —
the operation succeeds and invokes the cell renderer exactly rows × 7 times
(one trailing `showPage` op follows the cell marks). -/
theorem C4_amended_no_validation (st : PyState) (rect0 : Geom) (y m : Nat) (fw : Int)
    (hm1 : 1 ≤ m) (hm2 : m ≤ 12) :
    4 ≤ (monthcalendar fw y m).length ∧
    (add_calendar_page recordCb st rect0 y m fw).2 = none ∧
    (add_calendar_page recordCb st rect0 y m fw).1.canvas.ops.length =
      st.canvas.ops.length + (monthcalendar fw y m).length * 7 + 1 := by
  obtain ⟨h0, -, h2⟩ := add_calendar_page_record st rect0 y m fw
  refine ⟨monthcalendar_rows_ge fw y m hm1 hm2, h0, ?_⟩
  rw [h2]
  simp only [List.length_append, List.length_map, List.length_cons, List.length_nil]
  rw [cellsOf_length (monthcalendar fw y m) (monthcalendar_rows7 fw y m)]

/-- Witness for C4 amended at January 2025 with a degenerate rectangle of
negative extent. -/
theorem C4_amended_no_validation_witness :
    (1 ≤ 1 ∧ 1 ≤ 12) ∧
    (4 ≤ (monthcalendar 0 2025 1).length ∧
     (add_calendar_page recordCb ⟨0, initCanvas⟩ ⟨0, 0, -5, -5⟩ 2025 1 0).2 = none ∧
     (add_calendar_page recordCb ⟨0, initCanvas⟩ ⟨0, 0, -5, -5⟩ 2025 1 0).1.canvas.ops.length =
       (⟨0, initCanvas⟩ : PyState).canvas.ops.length + (monthcalendar 0 2025 1).length * 7 + 1) :=
  ⟨⟨by decide, by decide⟩,
   C4_amended_no_validation ⟨0, initCanvas⟩ ⟨0, 0, -5, -5⟩ 2025 1 0 (by decide) (by decide)⟩

/-- C3: for every valid month, `add_calendar_page` insets the page rectangle
by the line width on all sides, passes every cell a rectangle of width
insetWidth / 7 and height insetHeight / rows with origin
(inset.x + col·cellWidth, inset.y + (rows − row)·cellHeight); the cell sizes
tile the inset rectangle exactly (cellWidth · 7 = insetWidth and
cellHeight · rows = insetHeight, exactly over ℚ), and each of the rows × 7
grid cells is rendered exactly once. -/
theorem C3_cell_geometry (st : PyState) (rect0 : Geom) (y m : Nat) (fw : Int)
    (hm1 : 1 ≤ m) (hm2 : m ≤ 12) :
    (add_calendar_page recordCb st rect0 y m fw).2 = none ∧
    (add_calendar_page recordCb st rect0 y m fw).1.canvas.ops =
      st.canvas.ops ++ (cellsOf (monthcalendar fw y m)).map (fun rcd =>
        Op.cellMark rcd.2.2
          ⟨rect0.x + lineWidthOf (scaleFactorOf rect0) +
             (rect0.width - lineWidthOf (scaleFactorOf rect0) * 2) / 7 * (rcd.2.1 : ℚ),
           rect0.y + lineWidthOf (scaleFactorOf rect0) +
             (((monthcalendar fw y m).length : ℚ) - (rcd.1 : ℚ)) *
               ((rect0.height - lineWidthOf (scaleFactorOf rect0) * 2) /
                 ((monthcalendar fw y m).length : ℚ)),
           (rect0.width - lineWidthOf (scaleFactorOf rect0) * 2) / 7,
           (rect0.height - lineWidthOf (scaleFactorOf rect0) * 2) /
             ((monthcalendar fw y m).length : ℚ)⟩) ++ [Op.showPage] ∧
    (rect0.width - lineWidthOf (scaleFactorOf rect0) * 2) / 7 * 7 =
      rect0.width - lineWidthOf (scaleFactorOf rect0) * 2 ∧
    (rect0.height - lineWidthOf (scaleFactorOf rect0) * 2) /
        ((monthcalendar fw y m).length : ℚ) * ((monthcalendar fw y m).length : ℚ) =
      rect0.height - lineWidthOf (scaleFactorOf rect0) * 2 ∧
    (cellsOf (monthcalendar fw y m)).map (fun rcd => (rcd.1, rcd.2.1)) =
      List.product (List.range (monthcalendar fw y m).length) (List.range 7) ∧
    ((cellsOf (monthcalendar fw y m)).map (fun rcd => (rcd.1, rcd.2.1))).Nodup := by
  obtain ⟨h0, -, h2⟩ := add_calendar_page_record st rect0 y m fw
  have hrows : ((monthcalendar fw y m).length : ℚ) ≠ 0 := by
    have := monthcalendar_rows_ge fw y m hm1 hm2
    exact_mod_cast Nat.cast_ne_zero.mpr (by omega)
  have hrc := cellsOf_rowcol (monthcalendar fw y m) (monthcalendar_rows7 fw y m)
  refine ⟨h0, ?_, div_mul_cancel₀ _ (by norm_num), div_mul_cancel₀ _ hrows, hrc, ?_⟩
  · rw [h2]
    simp [cellGeom]
  · rw [hrc]
    exact List.Nodup.product (List.nodup_range _) (List.nodup_range _)

/-- Witness for C3 at April 2024, Monday-first, on a 700 × 500 page. -/
theorem C3_cell_geometry_witness :
    (1 ≤ 4 ∧ 4 ≤ 12) ∧
    ((add_calendar_page recordCb ⟨0, initCanvas⟩ ⟨0, 0, 700, 500⟩ 2024 4 0).2 = none ∧
     (add_calendar_page recordCb ⟨0, initCanvas⟩ ⟨0, 0, 700, 500⟩ 2024 4 0).1.canvas.ops =
       (⟨0, initCanvas⟩ : PyState).canvas.ops ++
         (cellsOf (monthcalendar 0 2024 4)).map (fun rcd =>
           Op.cellMark rcd.2.2
             ⟨(0 : ℚ) + lineWidthOf (scaleFactorOf ⟨0, 0, 700, 500⟩) +
                ((700 : ℚ) - lineWidthOf (scaleFactorOf ⟨0, 0, 700, 500⟩) * 2) / 7 * (rcd.2.1 : ℚ),
              (0 : ℚ) + lineWidthOf (scaleFactorOf ⟨0, 0, 700, 500⟩) +
                (((monthcalendar 0 2024 4).length : ℚ) - (rcd.1 : ℚ)) *
                  (((500 : ℚ) - lineWidthOf (scaleFactorOf ⟨0, 0, 700, 500⟩) * 2) /
                    ((monthcalendar 0 2024 4).length : ℚ)),
              ((700 : ℚ) - lineWidthOf (scaleFactorOf ⟨0, 0, 700, 500⟩) * 2) / 7,
              ((500 : ℚ) - lineWidthOf (scaleFactorOf ⟨0, 0, 700, 500⟩) * 2) /
                ((monthcalendar 0 2024 4).length : ℚ)⟩) ++ [Op.showPage] ∧
     ((700 : ℚ) - lineWidthOf (scaleFactorOf ⟨0, 0, 700, 500⟩) * 2) / 7 * 7 =
       (700 : ℚ) - lineWidthOf (scaleFactorOf ⟨0, 0, 700, 500⟩) * 2 ∧
     ((500 : ℚ) - lineWidthOf (scaleFactorOf ⟨0, 0, 700, 500⟩) * 2) /
         ((monthcalendar 0 2024 4).length : ℚ) * ((monthcalendar 0 2024 4).length : ℚ) =
       (500 : ℚ) - lineWidthOf (scaleFactorOf ⟨0, 0, 700, 500⟩) * 2 ∧
     (cellsOf (monthcalendar 0 2024 4)).map (fun rcd => (rcd.1, rcd.2.1)) =
       List.product (List.range (monthcalendar 0 2024 4).length) (List.range 7) ∧
     ((cellsOf (monthcalendar 0 2024 4)).map (fun rcd => (rcd.1, rcd.2.1))).Nodup) :=
  ⟨⟨by decide, by decide⟩,
   C3_cell_geometry ⟨0, initCanvas⟩ ⟨0, 0, 700, 500⟩ 2024 4 0 (by decide) (by decide)⟩

/-- C10: for every non-zero day, `draw_cell` draws, after the border and the
day number with its lifted ordinal suffix, exactly three placeholder lines
"DUMMY 1", "DUMMY 2", "DUMMY 3" at the smaller font (Helvetica,
scaleFactor × 0.018), each successive line offset downward by one
small-font-size increment from the day-number baseline, and returns with the
canvas's active font still set to that smaller font. -/
theorem C10_dummy_filler (sw : String → String → ℚ → ℚ) (c : Canvas) (day : Nat)
    (g : Geom) (f : Font) (sf : ℚ) (h : day ≠ 0) :
    (draw_cell sw c day g f sf).font = smallFontOf sf ∧
    (draw_cell sw c day g f sf).ops = c.ops ++
      [Op.rect g.x (g.y - g.height) g.width g.height,
       Op.drawString (g.x + (cellMarginOf f).width) (g.y - (cellMarginOf f).height)
         (toString day),
       Op.drawString (g.x + (cellMarginOf f).width + sw (toString day) f.name f.size)
         (g.y - (cellMarginOf f).height + (cellMarginOf f).height * (1 / 10))
         (ordinalsGet day),
       Op.drawString (g.x + (cellMarginOf f).width)
         (g.y - (cellMarginOf f).height - (smallFontOf sf).size * 1) "DUMMY 1",
       Op.drawString (g.x + (cellMarginOf f).width)
         (g.y - (cellMarginOf f).height - (smallFontOf sf).size * 2) "DUMMY 2",
       Op.drawString (g.x + (cellMarginOf f).width)
         (g.y - (cellMarginOf f).height - (smallFontOf sf).size * 3) "DUMMY 3"] := by
  have hr : List.range' 1 3 = [1, 2, 3] := rfl
  have s1 : ("DUMMY " ++ toString (1 : Nat)) = "DUMMY 1" := rfl
  have s2 : ("DUMMY " ++ toString (2 : Nat)) = "DUMMY 2" := rfl
  have s3 : ("DUMMY " ++ toString (3 : Nat)) = "DUMMY 3" := rfl
  rw [draw_cell, if_neg h]
  dsimp only
  rw [hr]
  simp only [List.foldl_cons, List.foldl_nil, Canvas.rect, Canvas.drawString,
    Canvas.setFont, s1, s2, s3]
  norm_num [List.append_assoc]
  exact ⟨s1, s2, s3⟩

/-- Witness for C10 at day 5 with a zero string-width metric, a unit cell,
Helvetica 10 and scale factor 100. -/
theorem C10_dummy_filler_witness :
    (5 ≠ 0) ∧
    ((draw_cell swZero initCanvas 5 ⟨0, 0, 1, 1⟩ ⟨"Helvetica", 10⟩ 100).font =
        smallFontOf 100 ∧
      (draw_cell swZero initCanvas 5 ⟨0, 0, 1, 1⟩ ⟨"Helvetica", 10⟩ 100).ops =
        initCanvas.ops ++
          [Op.rect 0 ((0 : ℚ) - 1) 1 1,
           Op.drawString ((0 : ℚ) + (cellMarginOf ⟨"Helvetica", 10⟩).width)
             ((0 : ℚ) - (cellMarginOf ⟨"Helvetica", 10⟩).height) (toString 5),
           Op.drawString
             ((0 : ℚ) + (cellMarginOf ⟨"Helvetica", 10⟩).width +
               swZero (toString 5) "Helvetica" 10)
             ((0 : ℚ) - (cellMarginOf ⟨"Helvetica", 10⟩).height +
               (cellMarginOf ⟨"Helvetica", 10⟩).height * (1 / 10)) (ordinalsGet 5),
           Op.drawString ((0 : ℚ) + (cellMarginOf ⟨"Helvetica", 10⟩).width)
             ((0 : ℚ) - (cellMarginOf ⟨"Helvetica", 10⟩).height -
               (smallFontOf 100).size * 1) "DUMMY 1",
           Op.drawString ((0 : ℚ) + (cellMarginOf ⟨"Helvetica", 10⟩).width)
             ((0 : ℚ) - (cellMarginOf ⟨"Helvetica", 10⟩).height -
               (smallFontOf 100).size * 2) "DUMMY 2",
           Op.drawString ((0 : ℚ) + (cellMarginOf ⟨"Helvetica", 10⟩).width)
             ((0 : ℚ) - (cellMarginOf ⟨"Helvetica", 10⟩).height -
               (smallFontOf 100).size * 3) "DUMMY 3"]) :=
  ⟨by decide, C10_dummy_filler swZero initCanvas 5 ⟨0, 0, 1, 1⟩ ⟨"Helvetica", 10⟩ 100
    (by decide)⟩
